import Mathlib

/-!
Verification of the EduVis AI front-end.

Shallow embedding of:
* the two genkit server flows, `src/ai/flows/generate-educational-visual.ts` and
  `src/ai/flows/explain-visual-concept.ts` (the opaque external model call is an
  explicit outcome parameter, everything after the `await` is translated from the
  source);
* the dual-mode form controller of `src/app/page.tsx` (`formSchema`, `onSubmit`,
  `handleHistoryClick`) with its React state made explicit;
* the `formSchema` of the single-mode variant of the page.

Machine strings are Lean `String`s; JS truthiness of nullable string fields and
`String.prototype.startsWith` are modelled explicitly below.
-/

namespace EduVis

/-- JS `String.prototype.startsWith`, modelled on the character sequence. -/
def strStartsWith (s p : String) : Bool := p.toList.isPrefixOf s.toList

/-- JS truthiness of a nullable string field: `null`/`undefined` and `""` are falsy. -/
def isTruthy : Option String → Bool
  | none => false
  | some s => !s.isEmpty

/-- The `domain` zod enum shared by the form schema and both flows (8 values). -/
inductive Domain
  | Biology
  | Physics
  | Chemistry
  | GeographyEnvironment
  | SpaceScience
  | Engineering
  | ComputerScience
  | Mathematics
deriving DecidableEq

/-- The exact enum label of each domain, as it appears in the zod schemas. -/
def Domain.label : Domain → String
  | .Biology => "Biology"
  | .Physics => "Physics"
  | .Chemistry => "Chemistry"
  | .GeographyEnvironment => "Geography & Environment"
  | .SpaceScience => "Space Science"
  | .Engineering => "Engineering"
  | .ComputerScience => "Computer Science"
  | .Mathematics => "Mathematics"

/-- `GenerateEducationalVisualInputSchema`: `{ prompt: string, domain: enum }`. -/
structure GenerateEducationalVisualInput where
  prompt : String
  domain : Domain
deriving DecidableEq

/-- The `media` object of an `ai.generate` response; its `url` field may be absent. -/
structure Media where
  url : Option String
deriving DecidableEq

/-- Outcome of the external `ai.generate` call inside the generation flow: the call
throws, or it resolves with an optional `media` object. -/
inductive GenOutcome
  | throw
  | resolve (media : Option Media)
deriving DecidableEq

/-- The fixed refusal sentinel of `generateEducationalVisualFlow`, exactly as in the
source, trailing space included. -/
def genRefusal : String :=
  "❌ \"I don\x27t do that. I only create educational and scientific visuals.\" "

/-- Body of `generateEducationalVisualFlow`: the `try`/`catch` around `ai.generate`,
the `if (!media || !media.url)` guard (false for a missing `media`, a missing `url`,
and an empty `url`, per JS truthiness), and `return {image: media.url}` otherwise. -/
def generateEducationalVisualFlow (input : GenerateEducationalVisualInput)
    (outcome : GenOutcome) : String :=
  match outcome with
  | .throw => genRefusal
  | .resolve none => genRefusal
  | .resolve (some m) =>
    match m.url with
    | none => genRefusal
    | some u => if u.isEmpty then genRefusal else u

/-- `generateEducationalVisual` is a direct wrapper around the flow. -/
def generateEducationalVisual (input : GenerateEducationalVisualInput)
    (outcome : GenOutcome) : String :=
  generateEducationalVisualFlow input outcome

/-- `ExplainVisualConceptInputSchema`: `{ photoDataUri: string, domain: enum }`. -/
structure ExplainVisualConceptInput where
  photoDataUri : String
  domain : Domain
deriving DecidableEq

/-- Outcome of `await prompt(input)` inside the explanation flow: the call throws, or
it resolves with a parsed `output` that may be missing (`output` is nullable). -/
inductive ExplainOutcome
  | throw
  | resolve (output : Option String)
deriving DecidableEq

/-- The fixed apology sentinel of `explainVisualConceptFlow`. -/
def explainApology : String := "❌ Sorry, I was unable to explain that image."

/-- Body of `explainVisualConceptFlow`: `return output!` forwards the resolved output
unchanged (the non-null assertion performs no runtime check, so a missing output is
forwarded too); only a thrown error is replaced by the apology sentinel. -/
def explainVisualConceptFlow (input : ExplainVisualConceptInput)
    (outcome : ExplainOutcome) : Option String :=
  match outcome with
  | .throw => some explainApology
  | .resolve output => output

/-- `explainVisualConcept` is a direct wrapper around the flow. -/
def explainVisualConcept (input : ExplainVisualConceptInput)
    (outcome : ExplainOutcome) : Option String :=
  explainVisualConceptFlow input outcome

/-- The error marker prefix checked by the controller (`startsWith('❌')`). -/
def errMarker : String := "❌"

/-- The model refusal sentence as plain text, without the ❌ marker — the shape the
model's textual refusal would take if it were handed back in the media URL field. -/
def modelRefusalText : String :=
  "I don\x27t do that. I only create educational and scientific visuals."

/-- `HistoryItem` of the dual-mode page: a tagged union of a visual entry (generation
request plus resulting image) and an explanation entry (explanation request plus
resulting text). -/
inductive HistoryItem
  | visual (prompt : String) (domain : Domain) (image : String)
  | explanation (photoDataUri : String) (domain : Domain) (explanation : String)
deriving DecidableEq

/-- The result string stored in a history entry (`image` or `explanation` field). -/
def entryResult : HistoryItem → String
  | .visual _ _ image => image
  | .explanation _ _ explanation => explanation

/-- The `contentType` React state: `'visual' | 'explanation' | null`. -/
inductive ContentType
  | visual
  | explanation
deriving DecidableEq

/-- The React state of the dual-mode page component that `onSubmit` touches. -/
structure ControllerState where
  isLoading : Bool
  generatedContent : Option String
  contentType : Option ContentType
  history : List HistoryItem
deriving DecidableEq

/-- The form values handed to `onSubmit`: `prompt` and `image` are optional, `image`
holds the data URI set by `handleFileChange` (or null). -/
structure FormValues where
  prompt : Option String
  domain : Domain
  image : Option String
deriving DecidableEq

/-- The controller-level sentinel set in the `catch` block of `onSubmit`. -/
def unexpectedError : String := "❌ An unexpected error occurred."

/-- The history prepend of `onSubmit`: `[newEntry, ...prev.slice(0, 49)]`. -/
def appendHistory (entry : HistoryItem) (prev : List HistoryItem) : List HistoryItem :=
  entry :: prev.take 49

/-- The guarded history update shared by both `onSubmit` branches:
`if (result && !result.startsWith(marker))` prepend, else leave unchanged. -/
def recordResult (entry : HistoryItem) (result : String)
    (prev : List HistoryItem) : List HistoryItem :=
  if !result.isEmpty && !(strStartsWith result errMarker) then appendHistory entry prev
  else prev

/-- The network call `onSubmit` awaited, if any: which flow, with which arguments. -/
inductive FlowInvocation
  | explain (photoDataUri : String) (domain : Domain)
  | generate (prompt : String) (domain : Domain)
deriving DecidableEq

/-- Explanation branch of `onSubmit` (`values.image` truthy), after the initial
`setIsLoading(true); setGeneratedContent(null); setContentType(null)` state `s0`.
The awaited call either throws (`Except.error`) or resolves with the `explanation`
string. The `finally` clause resets `isLoading` on every path. -/
def submitExplain (img : String) (domain : Domain) (callResult : Except Unit String)
    (s0 : ControllerState) : ControllerState × Option FlowInvocation :=
  let s1 := { s0 with contentType := some ContentType.explanation }
  match callResult with
  | .error _ =>
    ({ s1 with generatedContent := some unexpectedError, isLoading := false },
     some (.explain img domain))
  | .ok explanation =>
    let s2 := { s1 with generatedContent := some explanation }
    let h3 := recordResult (.explanation img domain explanation) explanation s2.history
    let s3 := { s2 with history := h3 }
    ({ s3 with isLoading := false }, some (.explain img domain))

/-- Generation branch of `onSubmit` (`values.image` falsy): `setContentType('visual')`
first, then the `if (!values.prompt)` early return (toast, no call), then the awaited
generation call, with the same catch/finally handling. -/
def submitGenerate (prompt : Option String) (domain : Domain)
    (callResult : Except Unit String) (s0 : ControllerState) :
    ControllerState × Option FlowInvocation :=
  let s1 := { s0 with contentType := some ContentType.visual }
  match prompt with
  | none => ({ s1 with isLoading := false }, none)
  | some p =>
    if p.isEmpty then ({ s1 with isLoading := false }, none)
    else
      match callResult with
      | .error _ =>
        ({ s1 with generatedContent := some unexpectedError, isLoading := false },
         some (.generate p domain))
      | .ok image =>
        let s2 := { s1 with generatedContent := some image }
        let h3 := recordResult (.visual p domain image) image s2.history
        let s3 := { s2 with history := h3 }
        ({ s3 with isLoading := false }, some (.generate p domain))

/-- `onSubmit` of the dual-mode page: resets the result state, branches on the
truthiness of `values.image`, and returns the new state plus the flow call it made.
`callResult` is the outcome of whichever flow call is awaited. -/
def onSubmit (values : FormValues) (callResult : Except Unit String)
    (s : ControllerState) : ControllerState × Option FlowInvocation :=
  let s0 := { s with isLoading := true, generatedContent := none, contentType := none }
  match values.image with
  | some img =>
    if img.isEmpty then submitGenerate values.prompt values.domain callResult s0
    else submitExplain img values.domain callResult s0
  | none => submitGenerate values.prompt values.domain callResult s0

/-- `formSchema` of the dual-mode page: `.refine(data => !!data.prompt || !!data.image)`
with the error reported on the `prompt` field. Returns the field/message pair of the
validation error, or `none` when the values pass. -/
def formSchemaCheck (values : FormValues) : Option (String × String) :=
  if isTruthy values.prompt || isTruthy values.image then none
  else some ("prompt", "Please provide a prompt or an image.")

/-- `formSchema` of the single-mode variant: `prompt: z.string().min(3)`. -/
def formSchemaCheckSingle (prompt : String) : Option (String × String) :=
  if prompt.length < 3 then some ("prompt", "Prompt must be at least 3 characters.")
  else none

/-- `form.handleSubmit(onSubmit)`: the resolver runs `formSchema` first and calls
`onSubmit` only when validation passes; on failure the state is untouched and no
flow is invoked. -/
def handleSubmit (values : FormValues) (callResult : Except Unit String)
    (s : ControllerState) : ControllerState × Option FlowInvocation :=
  match formSchemaCheck values with
  | none => onSubmit values callResult s
  | some _ => (s, none)

/-- The form fields `handleHistoryClick` writes: the `prompt` and `domain` form
values, the `image` form value and the `imagePreview` state. -/
structure FormState where
  prompt : String
  domain : Domain
  image : Option String
  imagePreview : Option String
deriving DecidableEq

/-- `handleHistoryClick` of the dual-mode page: repopulates the form and the result
pane from the stored entry (clearing the image via `removeImage()` for a visual
entry, restoring it for an explanation entry). It makes no flow call, so the
invocation component is always `none`, and it never touches `history`. -/
def handleHistoryClick (item : HistoryItem) (fs : FormState) (s : ControllerState) :
    FormState × ControllerState × Option FlowInvocation :=
  match item with
  | .visual p d image =>
    ({ fs with prompt := p, domain := d, image := none, imagePreview := none },
     { s with generatedContent := some image, contentType := some ContentType.visual },
     none)
  | .explanation uri d expl =>
    ({ fs with prompt := "", domain := d, image := some uri, imagePreview := some uri },
     { s with generatedContent := some expl,
              contentType := some ContentType.explanation },
     none)

/-- Iterating the success-path history update over a sequence of successful
submissions, oldest first (each step is the prepend `[entry, ...prev.slice(0, 49)]`). -/
def runSubs (h : List HistoryItem) : List HistoryItem → List HistoryItem
  | [] => h
  | e :: es => runSubs (appendHistory e h) es

theorem take50_append_cons (l t : List HistoryItem) (e : HistoryItem) :
    (l ++ e :: t.take 49).take 50 = (l ++ e :: t).take 50 := by
  rw [List.take_append_eq_append_take, List.take_append_eq_append_take]
  congr 1
  rcases Nat.lt_or_ge l.length 50 with h | h
  · obtain ⟨k, hk⟩ : ∃ k, 50 - l.length = k + 1 := ⟨50 - l.length - 1, by omega⟩
    rw [hk, List.take_succ_cons, List.take_succ_cons, List.take_take,
      Nat.min_eq_left (by omega)]
  · have h0 : 50 - l.length = 0 := by omega
    rw [h0]
    rfl

theorem runSubs_eq (es : List HistoryItem) :
    ∀ h : List HistoryItem, h.length ≤ 50 → runSubs h es = (es.reverse ++ h).take 50 := by
  induction es with
  | nil =>
    intro h hh
    simpa [runSubs] using (List.take_of_length_le hh).symm
  | cons e es ih =>
    intro h hh
    have hlen : (appendHistory e h).length ≤ 50 := by
      simp only [appendHistory, List.length_cons, List.length_take]
      omega
    rw [show runSubs h (e :: es) = runSubs (appendHistory e h) es from rfl, ih _ hlen,
      List.reverse_cons, List.append_assoc, List.singleton_append]
    exact take50_append_cons es.reverse h e

/-- Claim C1: over every sequence of successful submissions the controller's history
is the most-recent-first listing of the submitted entries, truncated to 50 (each
success is prepended, the oldest dropped on overflow), and its length never exceeds
50; in particular, after 51 successes whose first entry does not recur, the
first-submitted entry is absent and the 51st is the head. -/
theorem history_mostRecentFirst_capped (es : List HistoryItem) :
    runSubs [] es = es.reverse.take 50 ∧
    (runSubs [] es).length ≤ 50 ∧
    ∀ e : HistoryItem, es.length = 51 → es.head? = some e → e ∉ es.tail →
      e ∉ runSubs [] es ∧ (runSubs [] es).head? = es.getLast? := by
  have base := runSubs_eq es [] (by simp)
  rw [List.append_nil] at base
  refine ⟨base, ?_, ?_⟩
  · rw [base]
    simp only [List.length_take]
    omega
  · intro e hlen hhead hfresh
    obtain ⟨t, rfl⟩ : ∃ t, es = e :: t := by
      cases es with
      | nil => simp at hhead
      | cons a t =>
        simp only [List.head?_cons, Option.some.injEq] at hhead
        exact ⟨t, by rw [hhead]⟩
    have ht : t.length = 50 := by simpa using hlen
    have h1 : t.reverse.length = 50 := by simpa using ht
    have htake : (e :: t).reverse.take 50 = t.reverse := by
      rw [List.reverse_cons, List.take_append_eq_append_take,
        List.take_of_length_le (le_of_eq h1), h1]
      simp
    obtain ⟨x, xs, hx⟩ : ∃ x xs, t.reverse = x :: xs := by
      cases hrev : t.reverse with
      | nil => rw [hrev] at h1; simp at h1
      | cons x xs => exact ⟨x, xs, rfl⟩
    constructor
    · rw [base, htake, List.mem_reverse]
      exact hfresh
    · rw [base, htake, ← List.head?_reverse, List.reverse_cons, hx]
      simp

/-- A concrete first submission, distinct from the 50 that follow it. -/
def oldEntry : HistoryItem := .visual "first concept" .Biology "data:image/png;base64,a"

/-- The concrete entry submitted 50 more times after `oldEntry`. -/
def newEntry : HistoryItem := .visual "later concept" .Biology "data:image/png;base64,b"

/-- 51 successful submissions: `oldEntry` first, then 50 copies of `newEntry`. -/
def manySubs : List HistoryItem := oldEntry :: List.replicate 50 newEntry

/-- Claim C1 witness: after the 51 concrete submissions of `manySubs`, the history is
the most-recent-first truncation, capped at 50, the first-submitted entry is gone and
the last-submitted one is first. -/
theorem history_mostRecentFirst_capped_witness :
    runSubs [] manySubs = manySubs.reverse.take 50 ∧
    (runSubs [] manySubs).length ≤ 50 ∧
    oldEntry ∉ runSubs [] manySubs ∧
    (runSubs [] manySubs).head? = manySubs.getLast? :=
  ⟨(history_mostRecentFirst_capped manySubs).1,
   (history_mostRecentFirst_capped manySubs).2.1,
   ((history_mostRecentFirst_capped manySubs).2.2 oldEntry (by decide) (by decide)
     (by decide)).1,
   ((history_mostRecentFirst_capped manySubs).2.2 oldEntry (by decide) (by decide)
     (by decide)).2⟩

/-- Claim C3: if the external `ai.generate` call throws, or resolves with no media
payload (missing `media`, or missing `media.url`), `generateEducationalVisual`
returns the fixed ❌-prefixed refusal string instead of propagating the failure;
every such failure is normalized to the one sentinel. -/
theorem generate_failures_normalized (input : GenerateEducationalVisualInput) :
    generateEducationalVisual input .throw = genRefusal ∧
    generateEducationalVisual input (.resolve none) = genRefusal ∧
    (∀ m : Media, m.url = none →
      generateEducationalVisual input (.resolve (some m)) = genRefusal) ∧
    strStartsWith genRefusal errMarker = true := by
  refine ⟨rfl, rfl, ?_, by decide⟩
  rintro ⟨u⟩ h
  cases h
  rfl

/-- Claim C3 witness: the three failure outcomes at a concrete input all yield the
refusal sentinel. -/
theorem generate_failures_normalized_witness :
    generateEducationalVisual ⟨"photosynthesis", Domain.Biology⟩ GenOutcome.throw
      = genRefusal ∧
    generateEducationalVisual ⟨"photosynthesis", Domain.Biology⟩
      (GenOutcome.resolve (some ⟨none⟩)) = genRefusal :=
  ⟨(generate_failures_normalized ⟨"photosynthesis", Domain.Biology⟩).1,
   (generate_failures_normalized ⟨"photosynthesis", Domain.Biology⟩).2.2.1 ⟨none⟩ rfl⟩

/-- Claim C4 counterexample: the generation flow performs no string-matching on the
model output — a resolved media URL is returned verbatim. Feeding it the refusal
sentence (or any non-image string) as a media URL yields an unprefixed non-image
string, contradicting both "never an unprefixed non-image string" and "detects that
refusal by string-matching its fixed leading phrase". -/
theorem generate_no_string_match_cex :
    generateEducationalVisualFlow ⟨"a meme of a cat", Domain.Biology⟩
      (GenOutcome.resolve (some ⟨some modelRefusalText⟩)) = modelRefusalText ∧
    strStartsWith modelRefusalText errMarker = false ∧
    strStartsWith modelRefusalText "data:" = false :=
  ⟨rfl, by decide, by decide⟩

/-- Claim C4 (amended): for every input and every outcome of the external call, the
generation flow returns either the model-supplied non-empty media URL verbatim, or
the fixed ❌-prefixed refusal sentinel. A model refusal, which arrives as text with
no media payload, therefore surfaces as the ❌-prefixed sentinel — but the detection
is by absence of media, not by string-matching, and a non-image string supplied as a
media URL would be passed through unprefixed. -/
theorem generate_result_shape (input : GenerateEducationalVisualInput)
    (o : GenOutcome) :
    (∃ u : String, o = .resolve (some ⟨some u⟩) ∧ u.isEmpty = false ∧
      generateEducationalVisualFlow input o = u) ∨
    (generateEducationalVisualFlow input o = genRefusal ∧
      strStartsWith genRefusal errMarker = true) := by
  match o with
  | .throw => exact Or.inr ⟨rfl, by decide⟩
  | .resolve none => exact Or.inr ⟨rfl, by decide⟩
  | .resolve (some ⟨none⟩) => exact Or.inr ⟨rfl, by decide⟩
  | .resolve (some ⟨some u⟩) =>
    by_cases h : u.isEmpty = true
    · exact Or.inr ⟨by simp [generateEducationalVisualFlow, h], by decide⟩
    · exact Or.inl ⟨u, rfl, by simpa using h,
        by simp [generateEducationalVisualFlow, h]⟩

/-- Claim C5 counterexample: a model response that resolves with a missing output is
not normalized — `return output!` forwards it, so `explainVisualConcept` returns the
missing (malformed) result, not the apology sentinel. -/
theorem explain_missing_output_cex :
    explainVisualConcept ⟨"data:image/png;base64,AAAA", Domain.Physics⟩
      (ExplainOutcome.resolve none) = none ∧
    explainVisualConcept ⟨"data:image/png;base64,AAAA", Domain.Physics⟩
      (ExplainOutcome.resolve none) ≠ some explainApology :=
  ⟨rfl, by decide⟩

/-- Claim C5 (amended): for every input, a thrown error inside the explanation flow
is normalized so that `explainVisualConcept` returns the fixed ❌-prefixed apology
string, with no retry; a resolved response is forwarded exactly as received by the
non-null assertion, including a missing output, which is therefore not normalized. -/
theorem explain_throw_normalized (input : ExplainVisualConceptInput) :
    explainVisualConcept input .throw = some explainApology ∧
    strStartsWith explainApology errMarker = true ∧
    (∀ output : Option String,
      explainVisualConcept input (.resolve output) = output) := by
  exact ⟨rfl, by decide, fun _ => rfl⟩

theorem recordResult_marked (entry : HistoryItem) (res : String)
    (prev : List HistoryItem) (h : strStartsWith res errMarker = true) :
    recordResult entry res prev = prev := by
  simp [recordResult, h]

theorem recordResult_empty (entry : HistoryItem) (res : String)
    (prev : List HistoryItem) (h : res.isEmpty = true) :
    recordResult entry res prev = prev := by
  simp [recordResult, h]

theorem recordResult_mem (entry : HistoryItem) (res : String)
    (prev : List HistoryItem) (x : HistoryItem) (hx : x ∈ recordResult entry res prev) :
    (x = entry ∧ strStartsWith res errMarker = false) ∨ x ∈ prev := by
  unfold recordResult at hx
  by_cases hg : (!res.isEmpty && !(strStartsWith res errMarker)) = true
  · rw [if_pos hg] at hx
    simp only [Bool.and_eq_true, Bool.not_eq_true'] at hg
    unfold appendHistory at hx
    rcases List.mem_cons.mp hx with h | h
    · exact Or.inl ⟨h, hg.2⟩
    · exact Or.inr (List.take_subset 49 prev h)
  · rw [if_neg hg] at hx
    exact Or.inr hx

theorem submitGenerate_history (vp : Option String) (vd : Domain)
    (r : Except Unit String) (s0 : ControllerState) :
    (submitGenerate vp vd r s0).1.history = s0.history ∨
    ∃ p res, vp = some p ∧ r = Except.ok res ∧
      (submitGenerate vp vd r s0).1.history =
        recordResult (.visual p vd res) res s0.history := by
  rcases vp with _ | p
  · exact Or.inl rfl
  · by_cases hp : p.isEmpty
    · exact Or.inl (by simp [submitGenerate, hp])
    · rcases r with e | res
      · exact Or.inl (by simp [submitGenerate, hp])
      · exact Or.inr ⟨p, res, rfl, rfl, by simp [submitGenerate, hp]⟩

theorem submitExplain_history (img : String) (vd : Domain)
    (r : Except Unit String) (s0 : ControllerState) :
    (submitExplain img vd r s0).1.history = s0.history ∨
    ∃ res, r = Except.ok res ∧
      (submitExplain img vd r s0).1.history =
        recordResult (.explanation img vd res) res s0.history := by
  rcases r with e | res
  · exact Or.inl rfl
  · exact Or.inr ⟨res, rfl, rfl⟩

theorem onSubmit_history_cases (values : FormValues) (r : Except Unit String)
    (s : ControllerState) :
    (onSubmit values r s).1.history = s.history ∨
    ∃ entry res, r = Except.ok res ∧ entryResult entry = res ∧
      (onSubmit values r s).1.history = recordResult entry res s.history := by
  rcases values with ⟨vp, vd, vi⟩
  rcases vi with _ | img
  · rcases submitGenerate_history vp vd r
        { isLoading := true, generatedContent := none, contentType := none,
          history := s.history } with h | ⟨p, res, hvp, hr, h⟩
    · exact Or.inl h
    · exact Or.inr ⟨.visual p vd res, res, hr, rfl, h⟩
  · by_cases hi : img.isEmpty
    · have hrw : onSubmit ⟨vp, vd, some img⟩ r s =
          submitGenerate vp vd r
            { isLoading := true, generatedContent := none, contentType := none,
              history := s.history } := by
        simp [onSubmit, hi]
      rcases submitGenerate_history vp vd r
          { isLoading := true, generatedContent := none, contentType := none,
            history := s.history } with h | ⟨p, res, hvp, hr, h⟩
      · exact Or.inl (by rw [hrw]; exact h)
      · exact Or.inr ⟨.visual p vd res, res, hr, rfl, by rw [hrw]; exact h⟩
    · have hrw : onSubmit ⟨vp, vd, some img⟩ r s =
          submitExplain img vd r
            { isLoading := true, generatedContent := none, contentType := none,
              history := s.history } := by
        simp [onSubmit, hi]
      rcases submitExplain_history img vd r
          { isLoading := true, generatedContent := none, contentType := none,
            history := s.history } with h | ⟨res, hr, h⟩
      · exact Or.inl (by rw [hrw]; exact h)
      · exact Or.inr ⟨.explanation img vd res, res, hr, rfl, by rw [hrw]; exact h⟩

/-- Claim C2: a result string that begins with the ❌ marker is never appended to
history by either submission mode — such a submission leaves history unchanged — and
(given a history of unmarked results) every entry ever recorded has a result that
does not start with the marker. -/
theorem marked_result_never_recorded (values : FormValues) (s : ControllerState)
    (res : String) (hres : strStartsWith res errMarker = true)
    (hinv : ∀ x ∈ s.history, strStartsWith (entryResult x) errMarker = false) :
    (onSubmit values (.ok res) s).1.history = s.history ∧
    ∀ (r : Except Unit String) (x : HistoryItem),
      x ∈ (onSubmit values r s).1.history →
      strStartsWith (entryResult x) errMarker = false := by
  constructor
  · rcases onSubmit_history_cases values (.ok res) s with h | ⟨entry, res', hr, _, h⟩
    · exact h
    · rw [Except.ok.injEq] at hr
      rw [h, ← hr, recordResult_marked _ _ _ hres]
  · intro r x hx
    rcases onSubmit_history_cases values r s with h | ⟨entry, res', _, hentry, h⟩
    · exact hinv x (h ▸ hx)
    · rw [h] at hx
      rcases recordResult_mem entry res' s.history x hx with ⟨hxe, hmk⟩ | hmem
      · rw [hxe, hentry]
        exact hmk
      · exact hinv x hmem

/-- Claim C2 witness: submitting the concrete ❌-prefixed refusal leaves an empty
history empty, and a concrete membership instance of the recorded-results invariant. -/
theorem marked_result_never_recorded_witness :
    (onSubmit ⟨some "photosynthesis", Domain.Biology, none⟩ (.ok genRefusal)
      ⟨false, none, none, []⟩).1.history = ([] : List HistoryItem) ∧
    (oldEntry ∈ (onSubmit ⟨some "photosynthesis", Domain.Biology, none⟩
        (Except.error ()) ⟨false, none, none, []⟩).1.history →
      strStartsWith (entryResult oldEntry) errMarker = false) :=
  ⟨(marked_result_never_recorded ⟨some "photosynthesis", Domain.Biology, none⟩
      ⟨false, none, none, []⟩ genRefusal (by decide) (by simp)).1,
   (marked_result_never_recorded ⟨some "photosynthesis", Domain.Biology, none⟩
      ⟨false, none, none, []⟩ genRefusal (by decide) (by simp)).2
      (Except.error ()) oldEntry⟩

/-- Claim C9: an empty-string flow result is never appended to history either — the
guard also requires the result to be truthy — even though the empty string does not
carry the ❌ marker. -/
theorem empty_result_not_recorded (values : FormValues) (s : ControllerState) :
    (onSubmit values (.ok "") s).1.history = s.history ∧
    strStartsWith "" errMarker = false := by
  refine ⟨?_, by decide⟩
  rcases onSubmit_history_cases values (.ok "") s with h | ⟨entry, res, hr, _, h⟩
  · exact h
  · rw [Except.ok.injEq] at hr
    rw [h, ← hr, recordResult_empty _ _ _ (by decide)]

/-- Claim C6: with no image attached and a falsy (absent or empty) prompt, the form
schema rejects the submission with the field-level error on `prompt`, the state is
untouched and neither flow is invoked; in the single-mode variant a prompt shorter
than 3 characters is likewise rejected. -/
theorem empty_prompt_rejected_locally (values : FormValues) (s : ControllerState)
    (r : Except Unit String)
    (himg : isTruthy values.image = false) (hp : isTruthy values.prompt = false) :
    formSchemaCheck values = some ("prompt", "Please provide a prompt or an image.") ∧
    handleSubmit values r s = (s, none) ∧
    ∀ p : String, p.length < 3 →
      formSchemaCheckSingle p =
        some ("prompt", "Prompt must be at least 3 characters.") := by
  have hcheck : formSchemaCheck values =
      some ("prompt", "Please provide a prompt or an image.") := by
    simp [formSchemaCheck, himg, hp]
  refine ⟨hcheck, ?_, ?_⟩
  · unfold handleSubmit
    rw [hcheck]
  · intro p hp3
    simp [formSchemaCheckSingle, hp3]

/-- Claim C6 witness: the empty prompt with no image (the spec scenario) is rejected
locally, with no state change and no flow call; so is the 2-character prompt of the
single-mode schema. -/
theorem empty_prompt_rejected_locally_witness :
    formSchemaCheck ⟨some "", Domain.Biology, none⟩ =
      some ("prompt", "Please provide a prompt or an image.") ∧
    handleSubmit ⟨some "", Domain.Biology, none⟩ (.ok "data:image/png;base64,c")
      ⟨false, none, none, []⟩ = (⟨false, none, none, []⟩, none) ∧
    formSchemaCheckSingle "ab" =
      some ("prompt", "Prompt must be at least 3 characters.") :=
  ⟨(empty_prompt_rejected_locally ⟨some "", Domain.Biology, none⟩
      ⟨false, none, none, []⟩ (.ok "data:image/png;base64,c") (by decide) (by decide)).1,
   (empty_prompt_rejected_locally ⟨some "", Domain.Biology, none⟩
      ⟨false, none, none, []⟩ (.ok "data:image/png;base64,c") (by decide) (by decide)).2.1,
   (empty_prompt_rejected_locally ⟨some "", Domain.Biology, none⟩
      ⟨false, none, none, []⟩ (.ok "data:image/png;base64,c") (by decide)
      (by decide)).2.2 "ab" (by decide)⟩

/-- Claim C7: when both a prompt and an image are set, the controller routes the
submission to the explanation flow with the image and the domain — never to the
visual-generation flow. -/
theorem image_routes_to_explain (values : FormValues) (s : ControllerState)
    (r : Except Unit String) (img : String)
    (himg : values.image = some img) (hne : img.isEmpty = false)
    (hp : isTruthy values.prompt = true) :
    (handleSubmit values r s).2 = some (FlowInvocation.explain img values.domain) ∧
    ∀ (p : String) (d : Domain),
      (handleSubmit values r s).2 ≠ some (FlowInvocation.generate p d) := by
  have hcheck : formSchemaCheck values = none := by
    simp [formSchemaCheck, hp]
  have hsub : onSubmit values r s = submitExplain img values.domain r
      { isLoading := true, generatedContent := none, contentType := none,
        history := s.history } := by
    simp [onSubmit, himg, hne]
  have hinv : (handleSubmit values r s).2 =
      some (FlowInvocation.explain img values.domain) := by
    unfold handleSubmit
    rw [hcheck]
    show (onSubmit values r s).2 = _
    rw [hsub]
    rcases r with e | res <;> rfl
  refine ⟨hinv, ?_⟩
  intro p d
  rw [hinv]
  simp

/-- Claim C7 witness: a concrete submission carrying both a prompt and an image is
routed to the explanation flow. -/
theorem image_routes_to_explain_witness :
    (handleSubmit ⟨some "mitosis", Domain.Biology, some "data:image/png;base64,d"⟩
        (.ok "an explanation") ⟨false, none, none, []⟩).2 =
      some (FlowInvocation.explain "data:image/png;base64,d" Domain.Biology) ∧
    (handleSubmit ⟨some "mitosis", Domain.Biology, some "data:image/png;base64,d"⟩
        (.ok "an explanation") ⟨false, none, none, []⟩).2 ≠
      some (FlowInvocation.generate "mitosis" Domain.Biology) :=
  ⟨(image_routes_to_explain ⟨some "mitosis", Domain.Biology, some "data:image/png;base64,d"⟩
      ⟨false, none, none, []⟩ (.ok "an explanation") "data:image/png;base64,d"
      rfl (by decide) (by decide)).1,
   (image_routes_to_explain ⟨some "mitosis", Domain.Biology, some "data:image/png;base64,d"⟩
      ⟨false, none, none, []⟩ (.ok "an explanation") "data:image/png;base64,d"
      rfl (by decide) (by decide)).2 "mitosis" Domain.Biology⟩

/-- Claim C8: selecting a history entry is a pure replay — it invokes no flow,
leaves history and the loading flag untouched, puts the stored result in the result
pane, and repopulates the input fields exactly from the entry's stored request
fields (prompt and domain for a visual entry, clearing the image; image data URI and
domain for an explanation entry). -/
theorem history_click_pure_replay (item : HistoryItem) (fs : FormState)
    (s : ControllerState) :
    (handleHistoryClick item fs s).2.2 = none ∧
    ((handleHistoryClick item fs s).2.1).history = s.history ∧
    ((handleHistoryClick item fs s).2.1).isLoading = s.isLoading ∧
    ((handleHistoryClick item fs s).2.1).generatedContent = some (entryResult item) ∧
    (∀ p d image, item = .visual p d image →
      (handleHistoryClick item fs s).1 = ⟨p, d, none, none⟩ ∧
      ((handleHistoryClick item fs s).2.1).contentType = some ContentType.visual) ∧
    (∀ uri d expl, item = .explanation uri d expl →
      (handleHistoryClick item fs s).1 = ⟨"", d, some uri, some uri⟩ ∧
      ((handleHistoryClick item fs s).2.1).contentType =
        some ContentType.explanation) := by
  cases item with
  | visual p d image =>
    refine ⟨rfl, rfl, rfl, rfl, ?_, ?_⟩
    · intro p' d' i' h
      cases h
      exact ⟨rfl, rfl⟩
    · intro u' d' e' h
      cases h
  | explanation uri d expl =>
    refine ⟨rfl, rfl, rfl, rfl, ?_, ?_⟩
    · intro p' d' i' h
      cases h
    · intro u' d' e' h
      cases h
      exact ⟨rfl, rfl⟩

/-- Claim C8 witness: replaying a concrete visual entry and a concrete explanation
entry repopulates exactly the stored fields and issues no flow call. -/
theorem history_click_pure_replay_witness :
    (handleHistoryClick oldEntry ⟨"", Domain.Physics, none, none⟩
      ⟨false, none, none, [oldEntry]⟩).2.2 = none ∧
    (handleHistoryClick oldEntry ⟨"", Domain.Physics, none, none⟩
        ⟨false, none, none, [oldEntry]⟩).1 =
      ⟨"first concept", Domain.Biology, none, none⟩ ∧
    (handleHistoryClick (HistoryItem.explanation "data:image/png;base64,e"
        Domain.Physics "an explanation") ⟨"", Domain.Biology, none, none⟩
        ⟨false, none, none, []⟩).1 =
      ⟨"", Domain.Physics, some "data:image/png;base64,e",
        some "data:image/png;base64,e"⟩ :=
  ⟨(history_click_pure_replay oldEntry ⟨"", Domain.Physics, none, none⟩
      ⟨false, none, none, [oldEntry]⟩).1,
   ((history_click_pure_replay oldEntry ⟨"", Domain.Physics, none, none⟩
      ⟨false, none, none, [oldEntry]⟩).2.2.2.2.1 "first concept" Domain.Biology
      "data:image/png;base64,a" rfl).1,
   ((history_click_pure_replay (HistoryItem.explanation "data:image/png;base64,e"
      Domain.Physics "an explanation") ⟨"", Domain.Biology, none, none⟩
      ⟨false, none, none, []⟩).2.2.2.2.2 "data:image/png;base64,e" Domain.Physics
      "an explanation" rfl).1⟩

theorem submitGenerate_isLoading (vp : Option String) (vd : Domain)
    (r : Except Unit String) (s0 : ControllerState) :
    (submitGenerate vp vd r s0).1.isLoading = false := by
  rcases vp with _ | p
  · rfl
  · by_cases hp : p.isEmpty
    · simp [submitGenerate, hp]
    · rcases r with e | res <;> simp [submitGenerate, hp]

theorem submitExplain_isLoading (img : String) (vd : Domain)
    (r : Except Unit String) (s0 : ControllerState) :
    (submitExplain img vd r s0).1.isLoading = false := by
  rcases r with e | res <;> rfl

theorem onSubmit_isLoading (v : FormValues) (r : Except Unit String)
    (t : ControllerState) :
    (onSubmit v r t).1.isLoading = false := by
  rcases v with ⟨vp, vd, vi⟩
  rcases vi with _ | img
  · exact submitGenerate_isLoading vp vd r _
  · by_cases hi : img.isEmpty
    · rw [show onSubmit ⟨vp, vd, some img⟩ r t =
          submitGenerate vp vd r
            { isLoading := true, generatedContent := none, contentType := none,
              history := t.history } from by simp [onSubmit, hi]]
      exact submitGenerate_isLoading vp vd r _
    · rw [show onSubmit ⟨vp, vd, some img⟩ r t =
          submitExplain img vd r
            { isLoading := true, generatedContent := none, contentType := none,
              history := t.history } from by simp [onSubmit, hi]]
      exact submitExplain_isLoading img vd r _

theorem submitGenerate_throw (vp : Option String) (vd : Domain)
    (s0 : ControllerState)
    (h : (submitGenerate vp vd (Except.error ()) s0).2.isSome = true) :
    (submitGenerate vp vd (Except.error ()) s0).1.history = s0.history ∧
    (submitGenerate vp vd (Except.error ()) s0).1.generatedContent =
      some unexpectedError := by
  rcases vp with _ | p
  · simp [submitGenerate] at h
  · by_cases hp : p.isEmpty
    · simp [submitGenerate, hp] at h
    · exact ⟨by simp [submitGenerate, hp], by simp [submitGenerate, hp]⟩

theorem submitExplain_throw (img : String) (vd : Domain) (s0 : ControllerState) :
    (submitExplain img vd (Except.error ()) s0).1.history = s0.history ∧
    (submitExplain img vd (Except.error ()) s0).1.generatedContent =
      some unexpectedError :=
  ⟨rfl, rfl⟩

/-- Claim C10: when the awaited flow call throws out of `onSubmit`, the history list
is left unchanged, the displayed result becomes the controller-level sentinel
`❌ An unexpected error occurred.` — ❌-prefixed and distinct from both flow
sentinels — and the loading flag is false after every exit of `onSubmit`. -/
theorem throw_is_atomic_for_history (values : FormValues) (s : ControllerState)
    (hcall : (onSubmit values (Except.error ()) s).2.isSome = true) :
    (onSubmit values (Except.error ()) s).1.history = s.history ∧
    (onSubmit values (Except.error ()) s).1.generatedContent =
      some unexpectedError ∧
    strStartsWith unexpectedError errMarker = true ∧
    unexpectedError ≠ genRefusal ∧
    unexpectedError ≠ explainApology ∧
    ∀ (v : FormValues) (r : Except Unit String) (t : ControllerState),
      (onSubmit v r t).1.isLoading = false := by
  have hmain : (onSubmit values (Except.error ()) s).1.history = s.history ∧
      (onSubmit values (Except.error ()) s).1.generatedContent =
        some unexpectedError := by
    rcases values with ⟨vp, vd, vi⟩
    rcases vi with _ | img
    · exact submitGenerate_throw vp vd _ hcall
    · by_cases hi : img.isEmpty
      · have hrw : onSubmit ⟨vp, vd, some img⟩ (Except.error ()) s =
            submitGenerate vp vd (Except.error ())
              { isLoading := true, generatedContent := none, contentType := none,
                history := s.history } := by
          simp [onSubmit, hi]
        rw [hrw]
        exact submitGenerate_throw vp vd _ (by rw [hrw] at hcall; exact hcall)
      · have hrw : onSubmit ⟨vp, vd, some img⟩ (Except.error ()) s =
            submitExplain img vd (Except.error ())
              { isLoading := true, generatedContent := none, contentType := none,
                history := s.history } := by
          simp [onSubmit, hi]
        rw [hrw]
        exact submitExplain_throw img vd _
  exact ⟨hmain.1, hmain.2, by decide, by decide, by decide, onSubmit_isLoading⟩

/-- Claim C10 witness: a concrete generation submission whose awaited call throws
leaves the (nonempty) history unchanged, shows the controller sentinel, and ends
with the loading flag cleared. -/
theorem throw_is_atomic_for_history_witness :
    (onSubmit ⟨some "mitosis", Domain.Biology, none⟩ (Except.error ())
      ⟨false, none, none, [oldEntry]⟩).1.history = [oldEntry] ∧
    (onSubmit ⟨some "mitosis", Domain.Biology, none⟩ (Except.error ())
      ⟨false, none, none, [oldEntry]⟩).1.generatedContent = some unexpectedError ∧
    (onSubmit ⟨some "mitosis", Domain.Biology, none⟩ (Except.error ())
      ⟨false, none, none, [oldEntry]⟩).1.isLoading = false :=
  ⟨(throw_is_atomic_for_history ⟨some "mitosis", Domain.Biology, none⟩
      ⟨false, none, none, [oldEntry]⟩ (by decide)).1,
   (throw_is_atomic_for_history ⟨some "mitosis", Domain.Biology, none⟩
      ⟨false, none, none, [oldEntry]⟩ (by decide)).2.1,
   (throw_is_atomic_for_history ⟨some "mitosis", Domain.Biology, none⟩
      ⟨false, none, none, [oldEntry]⟩ (by decide)).2.2.2.2.2
      ⟨some "mitosis", Domain.Biology, none⟩ (Except.error ())
      ⟨false, none, none, [oldEntry]⟩⟩

end EduVis
